import Mathlib

/-!
Verification development for the inventory MCP server
(Streamable HTTP revision, `src/unnamed/part_001`, with the identical
session-routing logic of `src/src/index.ts`).

The embedding models:
* the token cache and two-hop authenticator `getDynamicsAccessToken`;
* the `query-inventory` tool handler;
* the `/mcp` session-multiplexing request handler and its session map.

Outbound HTTP responses and the current time are passed in explicitly as
oracles, so every function is a pure, executable Lean definition.
-/

namespace InventoryMCP

/-- Credentials drawn from `config` that `getDynamicsAccessToken` checks:
`tenantId`, `clientId`, `clientSecret`, `fnoId`.  Empty string models a
missing (falsy) environment variable. -/
structure Config where
  tenantId : String
  clientId : String
  clientSecret : String
  fnoId : String
deriving DecidableEq, Repr

/-- `cachedDynamicsToken`: the token string and its absolute expiry in
seconds since the epoch. -/
structure CachedToken where
  token : String
  expiresAt : Nat
deriving DecidableEq, Repr

/-- Hop-1 (Azure AD) response body: only the `access_token` field is
inspected by the code.  `none` models an absent field. -/
structure AadBody where
  access_token : Option String
deriving DecidableEq, Repr

/-- Hop-2 (Dynamics security service) response body: the code inspects
`access_token` and `expires_in`. -/
structure DynBody where
  access_token : Option String
  expires_in : Option Nat
deriving DecidableEq, Repr

/-- Outcome of one `fetch` + `.json()` pair: either a parsed body, or a
thrown exception (network error or JSON parse error). -/
inductive Fetch (α : Type)
  | ok (body : α)
  | exn (msg : String)
deriving DecidableEq, Repr

/-- The distinct error results `getDynamicsAccessToken` can build, each
carrying the raw upstream body where the code includes it as `details`. -/
inductive AuthError
  | missingCredentials
  | identityProviderFailure (details : AadBody)
  | downstreamTokenFailure (details : DynBody)
  | exception (msg : String)
deriving DecidableEq, Repr

/-- Result of `getDynamicsAccessToken`: `{ token }` or `{ error }`. -/
inductive AuthResult
  | token (t : String)
  | error (e : AuthError)
deriving DecidableEq, Repr

/-- Full observable outcome of one `getDynamicsAccessToken` call: the
returned value, the cache contents after the call, and whether each hop's
HTTP request was issued. -/
structure AuthOutcome where
  result : AuthResult
  cache : Option CachedToken
  hop1Called : Bool
  hop2Called : Bool
deriving DecidableEq, Repr

/-- JavaScript truthiness of an optional string (`undefined` and `""` are
falsy). -/
def truthyStr : Option String → Bool
  | none => false
  | some s => s != ""

/-- JavaScript truthiness of an optional number (`undefined` and `0` are
falsy). -/
def truthyNum : Option Nat → Bool
  | none => false
  | some k => k != 0

/-- The guard `!tenantId || !clientId || !clientSecret || !fnoId`,
negated: all four credentials are present. -/
def credsOk (cfg : Config) : Bool :=
  cfg.tenantId != "" && cfg.clientId != "" && cfg.clientSecret != "" && cfg.fnoId != ""

/-- The cache-hit test
`cachedDynamicsToken && cachedDynamicsToken.expiresAt > Date.now() / 1000 + 60`.
`nowMs` is `Date.now()` in milliseconds; over the integers the real-number
comparison `expiresAt > nowMs / 1000 + 60` is exactly
`1000 * expiresAt > nowMs + 60000`. -/
def cacheFresh (cache : Option CachedToken) (nowMs : Nat) : Bool :=
  match cache with
  | none => false
  | some c => decide (1000 * c.expiresAt > nowMs + 60000)

/-- Token string held in the cache (only read on the cache-hit path,
where the cache is necessarily `some`). -/
def cachedTokenStr : Option CachedToken → String
  | none => ""
  | some c => c.token

/-- The body of `getDynamicsAccessToken` after the cache check: the
credential guard, then the `try` block performing hop 1 and hop 2, with
the `catch` clearing the cache (`cachedDynamicsToken = null`). -/
def authFlow (cfg : Config) (nowMs : Nat) (hop1 : Fetch AadBody)
    (hop2 : Fetch DynBody) (cache : Option CachedToken) : AuthOutcome :=
  if !credsOk cfg then
    ⟨.error .missingCredentials, cache, false, false⟩
  else
    match hop1 with
    | .exn m => ⟨.error (.exception m), none, true, false⟩
    | .ok aad =>
      if !truthyStr aad.access_token then
        ⟨.error (.identityProviderFailure aad), cache, true, false⟩
      else
        match hop2 with
        | .exn m => ⟨.error (.exception m), none, true, true⟩
        | .ok dyn =>
          if !truthyStr dyn.access_token || !truthyNum dyn.expires_in then
            ⟨.error (.downstreamTokenFailure dyn), cache, true, true⟩
          else
            ⟨.token (dyn.access_token.getD ""),
             some ⟨dyn.access_token.getD "", nowMs / 1000 + dyn.expires_in.getD 0⟩,
             true, true⟩

/-- `getDynamicsAccessToken` (`src/unnamed/part_001`, lines 36-130):
return the cached token on a fresh cache hit, otherwise run the two-hop
authentication flow. -/
def getDynamicsAccessToken (cfg : Config) (nowMs : Nat) (hop1 : Fetch AadBody)
    (hop2 : Fetch DynBody) (cache : Option CachedToken) : AuthOutcome :=
  if cacheFresh cache nowMs then
    ⟨.token (cachedTokenStr cache), cache, false, false⟩
  else
    authFlow cfg nowMs hop1 hop2 cache

/-- Inventory service response: HTTP status and the parsed body
(abstracted to a string). -/
structure InvResponse where
  status : Nat
  body : String
deriving DecidableEq, Repr

/-- Result of the `query-inventory` tool handler, one constructor per
distinct `CallToolResult` shape the handler returns. -/
inductive QueryResult
  | ok (body : String)
  | authError (e : AuthError)
  | fnoMissing
  | upstreamRejected (status : Nat) (body : String)
  | transportFailure (msg : String)
deriving DecidableEq, Repr

/-- The `query-inventory` tool handler (`src/unnamed/part_001`, lines
141-219): authenticate, check `config.fnoId`, issue the inventory POST,
and surface non-2xx statuses as an `isError` result carrying the status
and body (`response.ok` is status 200-299). -/
def queryInventory (cfg : Config) (nowMs : Nat) (hop1 : Fetch AadBody)
    (hop2 : Fetch DynBody) (cache : Option CachedToken)
    (inv : Fetch InvResponse) : QueryResult × Option CachedToken :=
  let a := getDynamicsAccessToken cfg nowMs hop1 hop2 cache
  match a.result with
  | .error e => (.authError e, a.cache)
  | .token _ =>
    if cfg.fnoId = "" then (.fnoMissing, a.cache)
    else
      match inv with
      | .exn m => (.transportFailure m, a.cache)
      | .ok r =>
        if ¬ (200 ≤ r.status ∧ r.status ≤ 299) then
          (.upstreamRejected r.status r.body, a.cache)
        else
          (.ok r.body, a.cache)

/-- An inbound `/mcp` request as the handler sees it: the HTTP method
(only `POST` vs non-`POST` matters), the `mcp-session-id` header, and
whether the body parses as an initialize request. -/
structure Req where
  isPost : Bool
  sessionId : Option String
  isInit : Bool
deriving DecidableEq, Repr

/-- What the `/mcp` handler does with a request: route it to an existing
transport, create a new session bound to a new transport, or answer with
the `-32000` bad-request JSON-RPC error. -/
inductive HandleResult
  | routed (tid : Nat)
  | created (sid : String) (tid : Nat)
  | badRequest
deriving DecidableEq, Repr

/-- The `transports` object: session id → transport, with transports
identified by a numeric tag. -/
abbrev SessionMap := List (String × Nat)

/-- Property lookup `transports[sid]`. -/
def lookupSid : SessionMap → String → Option Nat
  | [], _ => none
  | (k, v) :: rest, sid => if k = sid then some v else lookupSid rest sid

/-- `delete transports[sid]` (the `onclose` handler): remove every entry
stored under `sid`. -/
def closeSession : SessionMap → String → SessionMap
  | [], _ => []
  | (k, v) :: rest, sid =>
    if k = sid then closeSession rest sid else (k, v) :: closeSession rest sid

/-- The session ids currently registered. -/
def keys (st : SessionMap) : List String := st.map Prod.fst

/-- At most one entry per session id. -/
def NodupKeys (st : SessionMap) : Prop := (keys st).Nodup

/-- JavaScript truthiness of the session-id header: absent and `""` are
falsy. -/
def sidTruthy : Option String → Bool
  | none => false
  | some s => s != ""

/-- The header string (used only under `sidTruthy`). -/
def sidValue : Option String → String
  | none => ""
  | some s => s

/-- The `/mcp` request handler (`src/unnamed/part_001` lines 226-258 and
`src/src/index.ts` lines 234-264).  The source's branch structure is
`if (sessionId && transports[sessionId]) route;
else if (method === "POST" && !sessionId && isInitReq) create;
else badRequest`.  Equivalently, grouped by the truthiness of the
session-id header: a truthy header either hits the map (route) or is
rejected (creation requires `!sessionId`); a falsy header can only
create, and only on an initialize `POST`.  Creation registers the fresh
id via `onsessioninitialized`. -/
def handle (st : SessionMap) (r : Req) (newSid : String) (newTid : Nat) :
    HandleResult × SessionMap :=
  if sidTruthy r.sessionId then
    match lookupSid st (sidValue r.sessionId) with
    | some tid => (.routed tid, st)
    | none => (.badRequest, st)
  else if r.isPost && r.isInit then
    (.created newSid newTid, (newSid, newTid) :: st)
  else
    (.badRequest, st)

/-- An event touching the session map: an inbound `/mcp` request (with
the id and transport the server would mint if it creates a session), or
a transport close firing `onclose` for a session id. -/
inductive Event
  | msg (r : Req) (newSid : String) (newTid : Nat)
  | close (sid : String)
deriving DecidableEq, Repr

/-- Effect of one event on the session map. -/
def step (st : SessionMap) (e : Event) : SessionMap :=
  match e with
  | .msg r ns nt => (handle st r ns nt).2
  | .close sid => closeSession st sid

/-- Run a sequence of events. -/
def run (st : SessionMap) : List Event → SessionMap
  | [] => st
  | e :: rest => run (step st e) rest

/-- Freshness of generated ids along a trace: every request event's
candidate session id is not currently registered (the `randomUUID`
generator never collides with a live session). -/
def freshTrace (st : SessionMap) : List Event → Bool
  | [] => true
  | .msg r ns nt :: rest =>
    (lookupSid st ns).isNone && freshTrace (step st (.msg r ns nt)) rest
  | .close s :: rest => freshTrace (step st (.close s)) rest

/-- The trace never closes session `sid`. -/
def avoidsClose (sid : String) : List Event → Bool
  | [] => true
  | .close s :: rest => s != sid && avoidsClose sid rest
  | .msg _ _ _ :: rest => avoidsClose sid rest

/-- The trace never mints `sid` as a new session id (`randomUUID` never
repeats an id, even a closed one). -/
def avoidsNewSid (sid : String) : List Event → Bool
  | [] => true
  | .msg _ ns _ :: rest => ns != sid && avoidsNewSid sid rest
  | .close _ :: rest => avoidsNewSid sid rest

/-! ### Association-list lemmas for the session map -/

theorem lookupSid_eq_none_iff (st : SessionMap) (a : String) :
    lookupSid st a = none ↔ a ∉ keys st := by
  induction st with
  | nil => simp [lookupSid, keys]
  | cons p rest ih =>
    obtain ⟨k, v⟩ := p
    by_cases h : k = a
    · subst h
      simp [lookupSid, keys]
    · have h' : a ≠ k := fun h' => h h'.symm
      simp [lookupSid, keys, h, h', ih]

theorem lookupSid_closeSession (st : SessionMap) (a b : String) :
    lookupSid (closeSession st b) a = if a = b then none else lookupSid st a := by
  induction st with
  | nil => simp [lookupSid, closeSession]
  | cons p rest ih =>
    obtain ⟨k, v⟩ := p
    by_cases hkb : k = b
    · subst hkb
      rw [show closeSession ((k, v) :: rest) k = closeSession rest k from by
        simp [closeSession]]
      rw [ih]
      by_cases hab : a = k
      · simp [hab]
      · have hka : ¬ k = a := fun h => hab h.symm
        simp [hab, lookupSid, hka]
    · rw [show closeSession ((k, v) :: rest) b = (k, v) :: closeSession rest b from by
        simp [closeSession, hkb]]
      by_cases hka : k = a
      · subst hka
        have hab : ¬ k = b := hkb
        simp [lookupSid, hab]
      · simp [lookupSid, hka, ih]

theorem keys_closeSession_sublist (st : SessionMap) (b : String) :
    List.Sublist (keys (closeSession st b)) (keys st) := by
  induction st with
  | nil => simp [closeSession, keys]
  | cons p rest ih =>
    obtain ⟨k, v⟩ := p
    by_cases h : k = b
    · simpa [closeSession, keys, h] using ih.cons k
    · simpa [closeSession, keys, h] using ih.cons₂ k

theorem nodupKeys_closeSession (st : SessionMap) (b : String)
    (h : NodupKeys st) : NodupKeys (closeSession st b) :=
  (keys_closeSession_sublist st b).nodup h

theorem handle_snd_cases (st : SessionMap) (r : Req) (n : String) (t : Nat) :
    (handle st r n t).2 = st ∨ (handle st r n t).2 = (n, t) :: st := by
  unfold handle
  split
  · split <;> simp
  · split <;> simp

theorem handle_created_snd (st : SessionMap) (r : Req) (n : String) (t : Nat)
    (h : (handle st r n t).1 = .created n t) : (handle st r n t).2 = (n, t) :: st := by
  unfold handle at h ⊢
  split at h
  · split at h <;> simp_all
  · split at h <;> simp_all

theorem freshTrace_cons_msg (st : SessionMap) (r : Req) (n : String) (t : Nat)
    (rest : List Event) (h : freshTrace st (.msg r n t :: rest) = true) :
    lookupSid st n = none ∧ freshTrace ((handle st r n t).2) rest = true := by
  have h' : ((lookupSid st n).isNone && freshTrace ((handle st r n t).2) rest) = true := h
  obtain ⟨h1, h2⟩ := (Bool.and_eq_true _ _).mp h'
  exact ⟨Option.isNone_iff_eq_none.mp h1, h2⟩

theorem avoidsClose_cons_close (sid s : String) (rest : List Event)
    (h : avoidsClose sid (.close s :: rest) = true) :
    s ≠ sid ∧ avoidsClose sid rest = true := by
  have h' : ((s != sid) && avoidsClose sid rest) = true := h
  obtain ⟨h1, h2⟩ := (Bool.and_eq_true _ _).mp h'
  refine ⟨fun he => ?_, h2⟩
  subst he
  simp at h1

theorem avoidsNewSid_cons_msg (sid : String) (r : Req) (n : String) (t : Nat)
    (rest : List Event) (h : avoidsNewSid sid (.msg r n t :: rest) = true) :
    n ≠ sid ∧ avoidsNewSid sid rest = true := by
  have h' : ((n != sid) && avoidsNewSid sid rest) = true := h
  obtain ⟨h1, h2⟩ := (Bool.and_eq_true _ _).mp h'
  refine ⟨fun he => ?_, h2⟩
  subst he
  simp at h1

theorem run_keeps_entry (evs : List Event) (st : SessionMap) (sid : String) (tid : Nat)
    (hnd : NodupKeys st) (hl : lookupSid st sid = some tid)
    (hf : freshTrace st evs = true) (hnc : avoidsClose sid evs = true) :
    NodupKeys (run st evs) ∧ lookupSid (run st evs) sid = some tid := by
  induction evs generalizing st with
  | nil => exact ⟨hnd, hl⟩
  | cons e rest ih =>
    cases e with
    | msg r n t =>
      obtain ⟨hfn, hf'⟩ := freshTrace_cons_msg st r n t rest hf
      have hnc' : avoidsClose sid rest = true := hnc
      have hne : n ≠ sid := fun h => by rw [h, hl] at hfn; cases hfn
      have hrun : run st (Event.msg r n t :: rest) = run ((handle st r n t).2) rest := rfl
      rw [hrun]
      rcases handle_snd_cases st r n t with h2 | h2
      · rw [h2] at hf' ⊢
        exact ih st hnd hl hf' hnc'
      · rw [h2] at hf' ⊢
        have hnd' : NodupKeys ((n, t) :: st) := by
          have hnk : n ∉ keys st := (lookupSid_eq_none_iff st n).mp hfn
          simpa [NodupKeys, keys] using And.intro hnk hnd
        have hl' : lookupSid ((n, t) :: st) sid = some tid := by
          simp [lookupSid, hne, hl]
        exact ih ((n, t) :: st) hnd' hl' hf' hnc'
    | close s =>
      obtain ⟨hs, hnc'⟩ := avoidsClose_cons_close sid s rest hnc
      have hf' : freshTrace (closeSession st s) rest = true := hf
      have hrun : run st (Event.close s :: rest) = run (closeSession st s) rest := rfl
      rw [hrun]
      have hl' : lookupSid (closeSession st s) sid = some tid := by
        have hsds : ¬ sid = s := fun h => hs h.symm
        rw [lookupSid_closeSession]
        simp [hsds, hl]
      exact ih (closeSession st s) (nodupKeys_closeSession st s hnd) hl' hf' hnc'

theorem run_keeps_none (evs : List Event) (st : SessionMap) (sid : String)
    (hl : lookupSid st sid = none) (hav : avoidsNewSid sid evs = true) :
    lookupSid (run st evs) sid = none := by
  induction evs generalizing st with
  | nil => exact hl
  | cons e rest ih =>
    cases e with
    | msg r n t =>
      obtain ⟨hne, hav'⟩ := avoidsNewSid_cons_msg sid r n t rest hav
      have hrun : run st (Event.msg r n t :: rest) = run ((handle st r n t).2) rest := rfl
      rw [hrun]
      rcases handle_snd_cases st r n t with h2 | h2
      · rw [h2]
        exact ih st hl hav'
      · rw [h2]
        exact ih ((n, t) :: st) (by simp [lookupSid, hne, hl]) hav'
    | close s =>
      have hav' : avoidsNewSid sid rest = true := hav
      have hrun : run st (Event.close s :: rest) = run (closeSession st s) rest := rfl
      rw [hrun]
      have hl' : lookupSid (closeSession st s) sid = none := by
        rw [lookupSid_closeSession]
        split <;> simp [hl]
      exact ih (closeSession st s) hl' hav'

/-! ### Claim theorems -/

/-- C1: whenever the cache holds a token whose `expiresAt` is more than
60 seconds after the current time, `getDynamicsAccessToken` issues no
outbound HTTP call on either hop, returns exactly the cached token
string, and leaves the cache unchanged. -/
theorem cache_hit_no_network (cfg : Config) (nowMs : Nat) (hop1 : Fetch AadBody)
    (hop2 : Fetch DynBody) (c : CachedToken)
    (h : 1000 * c.expiresAt > nowMs + 60000) :
    getDynamicsAccessToken cfg nowMs hop1 hop2 (some c) =
      ⟨.token c.token, some c, false, false⟩ := by
  simp [getDynamicsAccessToken, cacheFresh, cachedTokenStr, h]

theorem cache_hit_no_network_witness :
    getDynamicsAccessToken ⟨"t", "c", "s", "f"⟩ 0 (.ok ⟨none⟩) (.ok ⟨none, none⟩)
        (some ⟨"tok", 1000⟩) =
      ⟨.token "tok", some ⟨"tok", 1000⟩, false, false⟩ :=
  cache_hit_no_network ⟨"t", "c", "s", "f"⟩ 0 (.ok ⟨none⟩) (.ok ⟨none, none⟩)
    ⟨"tok", 1000⟩ (by decide)

/-- C5: when the cache is not fresh, credentials are configured, and the
hop-1 response body has no `access_token` field, `getDynamicsAccessToken`
returns the identity-provider failure carrying the raw hop-1 body, never
issues the hop-2 request, and leaves the cache exactly as it was. -/
theorem hop1_missing_token_stops_flow (cfg : Config) (nowMs : Nat)
    (aad : AadBody) (hop2 : Fetch DynBody) (cache : Option CachedToken)
    (hmiss : cacheFresh cache nowMs = false) (hcreds : credsOk cfg = true)
    (haad : aad.access_token = none) :
    getDynamicsAccessToken cfg nowMs (.ok aad) hop2 cache =
      ⟨.error (.identityProviderFailure aad), cache, true, false⟩ := by
  simp [getDynamicsAccessToken, hmiss, authFlow, hcreds, truthyStr, haad]

theorem hop1_missing_token_stops_flow_witness :
    getDynamicsAccessToken ⟨"t", "c", "s", "f"⟩ 0 (.ok ⟨none⟩)
        (.ok ⟨some "T2", some 3600⟩) none =
      ⟨.error (.identityProviderFailure ⟨none⟩), none, true, false⟩ :=
  hop1_missing_token_stops_flow ⟨"t", "c", "s", "f"⟩ 0 ⟨none⟩
    (.ok ⟨some "T2", some 3600⟩) none (by decide) (by decide) rfl

/-- C7: when the cache is empty or stale and credentials are configured,
if hop 1 answers with a (truthy) token and hop 2 answers with token `t2`
and `expires_in = 3600`, then `getDynamicsAccessToken` returns `t2` and
caches it with `expiresAt` equal to the current time in whole seconds
plus 3600. -/
theorem two_hop_success_caches_token (cfg : Config) (nowMs : Nat)
    (cache : Option CachedToken) (t1 t2 : String)
    (hmiss : cacheFresh cache nowMs = false) (hcreds : credsOk cfg = true)
    (h1 : t1 ≠ "") (h2 : t2 ≠ "") :
    getDynamicsAccessToken cfg nowMs (.ok ⟨some t1⟩) (.ok ⟨some t2, some 3600⟩) cache =
      ⟨.token t2, some ⟨t2, nowMs / 1000 + 3600⟩, true, true⟩ := by
  simp [getDynamicsAccessToken, hmiss, authFlow, hcreds, truthyStr, truthyNum, h1, h2]

theorem two_hop_success_caches_token_witness :
    getDynamicsAccessToken ⟨"t", "c", "s", "f"⟩ 5000 (.ok ⟨some "T1"⟩)
        (.ok ⟨some "T2", some 3600⟩) none =
      ⟨.token "T2", some ⟨"T2", 3605⟩, true, true⟩ :=
  two_hop_success_caches_token ⟨"t", "c", "s", "f"⟩ 5000 none "T1" "T2"
    (by decide) (by decide) (by decide) (by decide)

/-- C9: when the cache is not fresh, credentials are configured, hop 1
succeeds with a truthy token, and the hop-2 body has `expires_in` missing
or zero, `getDynamicsAccessToken` returns the downstream-token failure
carrying the raw hop-2 body and stores nothing: the cache is exactly as
before (this holds whatever the hop-2 `access_token` is, in particular
when it is present). -/
theorem hop2_untruthy_expiry_fails (cfg : Config) (nowMs : Nat)
    (cache : Option CachedToken) (t1 : String) (dyn : DynBody)
    (hmiss : cacheFresh cache nowMs = false) (hcreds : credsOk cfg = true)
    (h1 : t1 ≠ "") (he : dyn.expires_in = none ∨ dyn.expires_in = some 0) :
    getDynamicsAccessToken cfg nowMs (.ok ⟨some t1⟩) (.ok dyn) cache =
      ⟨.error (.downstreamTokenFailure dyn), cache, true, true⟩ := by
  rcases he with he | he <;>
    simp [getDynamicsAccessToken, hmiss, authFlow, hcreds, truthyStr, truthyNum, h1, he]

theorem hop2_untruthy_expiry_fails_witness :
    getDynamicsAccessToken ⟨"t", "c", "s", "f"⟩ 0 (.ok ⟨some "T1"⟩)
        (.ok ⟨some "T2", none⟩) none =
      ⟨.error (.downstreamTokenFailure ⟨some "T2", none⟩), none, true, true⟩ :=
  hop2_untruthy_expiry_fails ⟨"t", "c", "s", "f"⟩ 0 none "T1" ⟨some "T2", none⟩
    (by decide) (by decide) (by decide) (Or.inl rfl)

/-- C6 counterexample: a failing invocation that does NOT leave the cache
empty.  With a stale cached token, configured credentials, and a hop-1
body without `access_token`, the call fails with the identity-provider
error yet the cache still holds the old token: the claim that every
authentication failure sets the cache to absent is false on the code. -/
theorem auth_failure_cache_counterexample :
    (getDynamicsAccessToken ⟨"t", "c", "s", "f"⟩ 0 (.ok ⟨none⟩) (.ok ⟨none, none⟩)
        (some ⟨"old", 10⟩)).result =
      .error (.identityProviderFailure ⟨none⟩) ∧
    (getDynamicsAccessToken ⟨"t", "c", "s", "f"⟩ 0 (.ok ⟨none⟩) (.ok ⟨none, none⟩)
        (some ⟨"old", 10⟩)).cache =
      some ⟨"old", 10⟩ := by
  refine ⟨rfl, rfl⟩

/-- C6 as amended: on a failure thrown as an exception during either hop
the cache is cleared to absent, and on every other failure (missing
credentials, or a hop responding without the required fields) the cache
is left exactly at its prior value; no failure ever stores a new
token. -/
theorem auth_failure_cache_policy (cfg : Config) (nowMs : Nat)
    (hop1 : Fetch AadBody) (hop2 : Fetch DynBody) (cache : Option CachedToken) :
    (∀ m, (getDynamicsAccessToken cfg nowMs hop1 hop2 cache).result =
        .error (.exception m) →
      (getDynamicsAccessToken cfg nowMs hop1 hop2 cache).cache = none) ∧
    (∀ e, (getDynamicsAccessToken cfg nowMs hop1 hop2 cache).result = .error e →
      (∀ m, e ≠ .exception m) →
      (getDynamicsAccessToken cfg nowMs hop1 hop2 cache).cache = cache) := by
  unfold getDynamicsAccessToken authFlow
  constructor
  · intro m hm
    split at hm
    · simp_all
    · split at hm
      · simp_all
      · split at hm
        · simp_all
        · split at hm
          · simp_all
          · split at hm
            · simp_all
            · split at hm <;> simp_all
  · intro e he hne
    split at he
    · simp_all
    · split at he
      · simp_all
      · split at he
        · simp_all
          exact absurd he.symm (hne _)
        · split at he
          · simp_all
          · split at he
            · simp_all
              exact absurd he.symm (hne _)
            · split at he <;> simp_all

theorem auth_failure_cache_policy_witness :
    (getDynamicsAccessToken ⟨"t", "c", "s", "f"⟩ 0 (.exn "boom") (.ok ⟨none, none⟩)
        (some ⟨"old", 10⟩)).cache = none :=
  (auth_failure_cache_policy ⟨"t", "c", "s", "f"⟩ 0 (.exn "boom") (.ok ⟨none, none⟩)
      (some ⟨"old", 10⟩)).1 "boom" rfl

/-- C8: when authentication yields a token, `config.fnoId` is set, and
the inventory endpoint answers with a non-2xx status, the
`query-inventory` handler returns the structured upstream-rejected result
carrying that status and the response body (it is a returned error value,
not a thrown exception). -/
theorem inventory_non2xx_upstream_rejected (cfg : Config) (nowMs : Nat)
    (hop1 : Fetch AadBody) (hop2 : Fetch DynBody) (cache : Option CachedToken)
    (status : Nat) (body : String) (t : String)
    (ht : (getDynamicsAccessToken cfg nowMs hop1 hop2 cache).result = .token t)
    (hfno : cfg.fnoId ≠ "") (hs : ¬ (200 ≤ status ∧ status ≤ 299)) :
    (queryInventory cfg nowMs hop1 hop2 cache (.ok ⟨status, body⟩)).1 =
      .upstreamRejected status body := by
  simp [queryInventory, ht, hfno, hs]

theorem inventory_non2xx_upstream_rejected_witness :
    (queryInventory ⟨"t", "c", "s", "f"⟩ 0 (.ok ⟨none⟩) (.ok ⟨none, none⟩)
        (some ⟨"tok", 1000⟩) (.ok ⟨403, "denied"⟩)).1 =
      .upstreamRejected 403 "denied" :=
  inventory_non2xx_upstream_rejected ⟨"t", "c", "s", "f"⟩ 0 (.ok ⟨none⟩)
    (.ok ⟨none, none⟩) (some ⟨"tok", 1000⟩) 403 "denied" "tok" (by decide)
    (by decide) (by decide)

/-- C2: starting from a session map with no duplicate ids, after an
initialize request creates session `sid` bound to transport `tid`, and
along any further event trace whose generated ids are fresh and which
never closes `sid`, the map still has at most one entry per session id,
`sid` still maps to `tid`, and any follow-up request bearing `sid` is
routed to exactly the transport `tid` that the initialize created. -/
theorem session_routing_unique_and_stable (st0 : SessionMap) (r0 : Req)
    (sid : String) (tid : Nat) (evs : List Event) (r : Req) (ns : String) (nt : Nat)
    (hnd : NodupKeys st0) (hfresh0 : lookupSid st0 sid = none) (hsid : sid ≠ "")
    (hinit : (handle st0 r0 sid tid).1 = .created sid tid)
    (hf : freshTrace (handle st0 r0 sid tid).2 evs = true)
    (hnc : avoidsClose sid evs = true) (hr : r.sessionId = some sid) :
    NodupKeys (run (handle st0 r0 sid tid).2 evs) ∧
    lookupSid (run (handle st0 r0 sid tid).2 evs) sid = some tid ∧
    (handle (run (handle st0 r0 sid tid).2 evs) r ns nt).1 = .routed tid := by
  have hsnd : (handle st0 r0 sid tid).2 = (sid, tid) :: st0 :=
    handle_created_snd st0 r0 sid tid hinit
  rw [hsnd] at hf ⊢
  have hnd1 : NodupKeys ((sid, tid) :: st0) := by
    have hnk : sid ∉ keys st0 := (lookupSid_eq_none_iff st0 sid).mp hfresh0
    simpa [NodupKeys, keys] using And.intro hnk hnd
  have hl1 : lookupSid ((sid, tid) :: st0) sid = some tid := by simp [lookupSid]
  obtain ⟨hnd2, hl2⟩ := run_keeps_entry evs ((sid, tid) :: st0) sid tid hnd1 hl1 hf hnc
  refine ⟨hnd2, hl2, ?_⟩
  simp [handle, hr, sidTruthy, sidValue, hsid, hl2]

theorem session_routing_unique_and_stable_witness :
    NodupKeys (run (handle [] ⟨true, none, true⟩ "s1" 1).2
        [.msg ⟨true, some "s1", false⟩ "x1" 9, .close "s9",
         .msg ⟨true, none, true⟩ "s2" 2]) ∧
    lookupSid (run (handle [] ⟨true, none, true⟩ "s1" 1).2
        [.msg ⟨true, some "s1", false⟩ "x1" 9, .close "s9",
         .msg ⟨true, none, true⟩ "s2" 2]) "s1" = some 1 ∧
    (handle (run (handle [] ⟨true, none, true⟩ "s1" 1).2
        [.msg ⟨true, some "s1", false⟩ "x1" 9, .close "s9",
         .msg ⟨true, none, true⟩ "s2" 2]) ⟨false, some "s1", false⟩ "x2" 7).1 =
      .routed 1 :=
  session_routing_unique_and_stable [] ⟨true, none, true⟩ "s1" 1
    [.msg ⟨true, some "s1", false⟩ "x1" 9, .close "s9",
     .msg ⟨true, none, true⟩ "s2" 2] ⟨false, some "s1", false⟩ "x2" 7
    (by simp [NodupKeys, keys]) rfl (by decide) rfl (by decide) (by decide) rfl

/-- C3: a request whose session id is absent from the header or unknown
to the session map, and whose body is not a valid initialize message, is
answered with the `-32000` bad-request error and the session map is not
mutated in any way. -/
theorem unknown_session_non_init_rejected (st : SessionMap) (r : Req)
    (ns : String) (nt : Nat)
    (hunknown : ∀ s, r.sessionId = some s → lookupSid st s = none)
    (hni : r.isInit = false) :
    handle st r ns nt = (.badRequest, st) := by
  cases hsid : r.sessionId with
  | none => simp [handle, hsid, sidTruthy, hni]
  | some s =>
    have hl := hunknown s hsid
    by_cases hse : s = ""
    · subst hse
      simp [handle, hsid, sidTruthy, sidValue, hni]
    · simp [handle, hsid, sidTruthy, sidValue, hse, hl]

theorem unknown_session_non_init_rejected_witness :
    handle [("a", 1)] ⟨true, some "b", false⟩ "n" 7 = (.badRequest, [("a", 1)]) :=
  unknown_session_non_init_rejected [("a", 1)] ⟨true, some "b", false⟩ "n" 7
    (by intro s hs; simp at hs; subst hs; decide) rfl

/-- C4: closing session `sid` removes it from the map, and along any
further trace that never mints `sid` again as a generated id, `sid` stays
unmapped and every message bearing `sid` is rejected with the bad-request
error without mutating the map: a closed session is never resurrected. -/
theorem closed_session_never_resurrected (st : SessionMap) (sid : String)
    (evs : List Event) (r : Req) (ns : String) (nt : Nat)
    (hsid : sid ≠ "") (hav : avoidsNewSid sid evs = true)
    (hr : r.sessionId = some sid) :
    lookupSid (run (step st (.close sid)) evs) sid = none ∧
    handle (run (step st (.close sid)) evs) r ns nt =
      (.badRequest, run (step st (.close sid)) evs) := by
  have h0 : lookupSid (closeSession st sid) sid = none := by
    rw [lookupSid_closeSession]
    simp
  have h1 : lookupSid (run (step st (.close sid)) evs) sid = none :=
    run_keeps_none evs (closeSession st sid) sid h0 hav
  refine ⟨h1, ?_⟩
  simp [handle, hr, sidTruthy, sidValue, hsid, h1]

theorem closed_session_never_resurrected_witness :
    lookupSid (run (step [("s1", 1), ("s2", 2)] (.close "s1"))
        [.msg ⟨true, none, true⟩ "s3" 3, .msg ⟨true, some "s1", true⟩ "s4" 4])
        "s1" = none ∧
    handle (run (step [("s1", 1), ("s2", 2)] (.close "s1"))
        [.msg ⟨true, none, true⟩ "s3" 3, .msg ⟨true, some "s1", true⟩ "s4" 4])
        ⟨true, some "s1", true⟩ "s5" 5 =
      (.badRequest,
       run (step [("s1", 1), ("s2", 2)] (.close "s1"))
        [.msg ⟨true, none, true⟩ "s3" 3, .msg ⟨true, some "s1", true⟩ "s4" 4]) :=
  closed_session_never_resurrected [("s1", 1), ("s2", 2)] "s1"
    [.msg ⟨true, none, true⟩ "s3" 3, .msg ⟨true, some "s1", true⟩ "s4" 4]
    ⟨true, some "s1", true⟩ "s5" 5 (by decide) (by decide) rfl

/-- C10: a request with no session-id header whose method is not `POST`
is answered with the bad-request error and no session is created, even
when its body is a valid initialize message: only a `POST` can create a
session. -/
theorem non_post_without_session_rejected (st : SessionMap) (r : Req)
    (ns : String) (nt : Nat) (h1 : r.sessionId = none) (h2 : r.isPost = false) :
    handle st r ns nt = (.badRequest, st) := by
  simp [handle, h1, sidTruthy, h2]

theorem non_post_without_session_rejected_witness :
    handle [("a", 1)] ⟨false, none, true⟩ "n" 7 = (.badRequest, [("a", 1)]) :=
  non_post_without_session_rejected [("a", 1)] ⟨false, none, true⟩ "n" 7 rfl rfl

end InventoryMCP
